import Mathlib

/-!
Verification of the Lead Generation / Qualification bot (`src/app.py`).

The program keeps session state (`lead_data`, `conversation_stage`,
`analytics`) and exposes four deterministic components: the lead scorer
`qualify_lead`, the stage sequencer `get_next_question`, the field
validator `validate_response` and the completion handler at the end of
`main`.  Each is embedded below as a pure Lean function over an explicit
session state.

Modelling conventions:
  * `lead_data` is a Python dict from field names to the raw strings the
    user typed; it is modelled as a partial map `String → Option String`.
  * Python `float(...)` / `int(...)` applied to those strings are modelled
    by `pyFloat?` / `pyInt?`, which return `none` exactly when the Python
    call raises `ValueError`.  `pyFloat?` returns the exact rational value
    of the decimal literal.  Scope of the model: ASCII digits, optional
    surrounding whitespace, optional sign, underscore digit grouping,
    decimal point and exponent.  (`inf`/`nan` literals and binary64
    rounding are not modelled; neither affects the truth of any property
    below — all weight arithmetic in `qualify_lead` is exact in binary64,
    `0.4*100` and `0.3*100` evaluate to exactly `40.0` and `30.0`, so the
    score is one of {0,30,40,60,70,100} and the `≥ 80` / `≥ 50` cuts are
    exact.)
  * The regexes of `validate_response` are embedded as dedicated matchers
    over the character list of the input; `re.match` with a `^...$`
    pattern is full-string matching (the Python `$`-before-final-newline
    quirk is not modelled; no property mentions newline inputs).
-/

/-- A lead-data record: Python dict from field name to the raw user input. -/
abbrev LeadData := String → Option String

/-- Python `field in lead_data`. -/
def hasField (d : LeadData) (f : String) : Bool :=
  (d f).isSome

/- ### Python numeric-string parsing -/

/-- The ASCII digit class `0`-`9` (regex `\d`, Python digit characters;
the model is restricted to ASCII). -/
def isAsciiDigit (c : Char) : Bool :=
  decide (48 ≤ c.toNat ∧ c.toNat ≤ 57)

/-- Python `str.strip()` at the character-list level (ASCII whitespace). -/
def trimWs (cs : List Char) : List Char :=
  ((cs.dropWhile Char.isWhitespace).reverse.dropWhile Char.isWhitespace).reverse

/-- Decimal value of a digit list (most significant first). -/
def natOfDigits (ds : List Char) : Nat :=
  ds.foldl (fun acc c => 10 * acc + (c.toNat - 48)) 0

/-- After the first digit of a Python numeric literal: a sequence of
digits in which a single underscore may stand between two digits.
Returns the digits with the underscores removed, `none` on bad grouping. -/
def digitsTail? : List Char → Option (List Char)
  | [] => some []
  | c :: rest =>
    if c = '_' then
      match rest with
      | c2 :: rest2 =>
        if isAsciiDigit c2 then (digitsTail? rest2).map (fun l => c2 :: l) else none
      | [] => none
    else if isAsciiDigit c then (digitsTail? rest).map (fun l => c :: l) else none

/-- A nonempty run of digits with optional underscore grouping, as in
Python numeric literals (`int("1_000")` is `1000`, `int("_1")` raises). -/
def groupedDigits? (cs : List Char) : Option (List Char) :=
  match cs with
  | [] => none
  | c :: rest =>
    if isAsciiDigit c then (digitsTail? rest).map (fun l => c :: l) else none

/-- Optional sign followed by grouped digits: the body of Python `int`. -/
def pyIntSigned? (cs : List Char) : Option Int :=
  if cs.head? = some '+' then
    (groupedDigits? cs.tail).map (fun ds => (natOfDigits ds : Int))
  else if cs.head? = some '-' then
    (groupedDigits? cs.tail).map (fun ds => -(natOfDigits ds : Int))
  else
    (groupedDigits? cs).map (fun ds => (natOfDigits ds : Int))

/-- Python `int(s)` for a string `s`: `none` when it raises `ValueError`. -/
def pyInt? (s : String) : Option Int :=
  pyIntSigned? (trimWs s.data)

/-- Split a character list at the first character satisfying `p`;
the second component is `none` when no character satisfies `p`. -/
def splitOnFirst (p : Char → Bool) : List Char → List Char × Option (List Char)
  | [] => ([], none)
  | c :: rest =>
    if p c then ([], some rest)
    else
      let r := splitOnFirst p rest
      (c :: r.1, r.2)

/-- Value of the mantissa of a Python float literal:
`digits`, `digits.`, `digits.digits` or `.digits`. -/
def mantissaVal? (mant : List Char) : Option Rat :=
  let s := splitOnFirst (fun c => c == '.') mant
  match s.2 with
  | none => (groupedDigits? s.1).map (fun ds => (natOfDigits ds : Rat))
  | some fp =>
    if fp.isEmpty then
      (groupedDigits? s.1).map (fun ds => (natOfDigits ds : Rat))
    else
      match s.1 with
      | [] => (groupedDigits? fp).map
          (fun ds => (natOfDigits ds : Rat) / (10 : Rat) ^ ds.length)
      | _ => do
          let ids ← groupedDigits? s.1
          let fds ← groupedDigits? fp
          pure ((natOfDigits ids : Rat) + (natOfDigits fds : Rat) / (10 : Rat) ^ fds.length)

/-- Mantissa with an optional `e`/`E` exponent part. -/
def pyFloatNum? (cs : List Char) : Option Rat :=
  let se := splitOnFirst (fun c => c == 'e' || c == 'E') cs
  match se.2 with
  | none => mantissaVal? se.1
  | some ex => do
      let m ← mantissaVal? se.1
      let e ← pyIntSigned? ex
      pure (m * (10 : Rat) ^ e)

/-- Optional sign followed by a float literal body. -/
def pyFloatSigned? (cs : List Char) : Option Rat :=
  if cs.head? = some '+' then pyFloatNum? cs.tail
  else if cs.head? = some '-' then (pyFloatNum? cs.tail).map (fun q => -q)
  else pyFloatNum? cs

/-- Python `float(s)` for a finite-decimal string `s`: the exact rational
value, `none` when the call raises `ValueError`. -/
def pyFloat? (s : String) : Option Rat :=
  pyFloatSigned? (trimWs s.data)

/- ### Field validation (`validate_response`, app.py lines 122-147) -/

/-- Character class `[a-zA-Z0-9_.+-]` of the email pattern. -/
def isEmailLocalChar (c : Char) : Bool :=
  c.isAlphanum || c == '_' || c == '.' || c == '+' || c == '-'

/-- Character class `[a-zA-Z0-9-]` of the email pattern. -/
def isEmailDomChar (c : Char) : Bool :=
  c.isAlphanum || c == '-'

/-- Character class `[a-zA-Z0-9-.]` of the email pattern. -/
def isEmailTailChar (c : Char) : Bool :=
  c.isAlphanum || c == '-' || c == '.'

/-- Full match of `^[a-zA-Z0-9_.+-]+@[a-zA-Z0-9-]+\.[a-zA-Z0-9-.]+$`.
None of the classes contains `@`, so the matched `@` is the first one, and
the `[a-zA-Z0-9-]+` block is dot-free, so it is exactly the part between
`@` and the first dot after it. -/
def matchEmailCore (cs : List Char) : Bool :=
  let sa := splitOnFirst (fun c => c == '@') cs
  match sa.2 with
  | none => false
  | some rest =>
    (!sa.1.isEmpty && sa.1.all isEmailLocalChar) &&
    (let sd := splitOnFirst (fun c => c == '.') rest
     match sd.2 with
     | none => false
     | some tail =>
       (!sd.1.isEmpty && sd.1.all isEmailDomChar) &&
       (!tail.isEmpty && tail.all isEmailTailChar))

/-- Body of the phone pattern after the optional plus:
`[1-9]\d{1,14}$`. -/
def phoneBody (cs : List Char) : Bool :=
  match cs with
  | [] => false
  | c :: ds =>
    decide (49 ≤ c.toNat ∧ c.toNat ≤ 57) && ds.all isAsciiDigit &&
      decide (1 ≤ ds.length ∧ ds.length ≤ 14)

/-- Full match of `^\+?[1-9]\d{1,14}$`. -/
def matchPhoneCore (cs : List Char) : Bool :=
  match cs with
  | '+' :: rest => phoneBody rest
  | _ => phoneBody cs

/-- Full match of `^\d+$`. -/
def matchNumberCore (cs : List Char) : Bool :=
  !cs.isEmpty && cs.all isAsciiDigit

/-- Full match of `^([1-9]|10)$`: a single digit `1`-`9`, or `10`. -/
def matchScaleCore (cs : List Char) : Bool :=
  match cs with
  | [c] => decide (49 ≤ c.toNat ∧ c.toNat ≤ 57)
  | [c1, c2] => decide (c1 = '1' ∧ c2 = '0')
  | _ => false

/-- `validate_response` (app.py lines 122-147): match the raw input
against the rule for the field type; `True` for unknown field types.
The `st.error` side effect carries no state and is dropped. -/
def validate_response (response : String) (field_type : String) : Bool :=
  if field_type = "email" then matchEmailCore response.data
  else if field_type = "phone" then matchPhoneCore response.data
  else if field_type = "number" then matchNumberCore response.data
  else if field_type = "scale" then matchScaleCore response.data
  else true

/- ### Lead scoring (`qualify_lead`, app.py lines 46-69) -/

/-- `float(lead_data.get("budget", 0))`: default `0` when the field is
missing, else Python float parsing of the stored string.  `none` means
the conversion raised and the `except` branch returns `"Cold"`. -/
def budgetVal (d : LeadData) : Option Rat :=
  match d "budget" with
  | none => some 0
  | some s => pyFloat? s

/-- `int(lead_data.get("timeline", 999))`. -/
def timelineVal (d : LeadData) : Option Int :=
  match d "timeline" with
  | none => some 999
  | some s => pyInt? s

/-- `int(lead_data.get("interest_level", 0))`. -/
def interestVal (d : LeadData) : Option Int :=
  match d "interest_level" with
  | none => some 0
  | some s => pyInt? s

/-- The weighted score of `qualify_lead`: `0.4*100`, `0.3*100` and
`0.3*100` evaluate to exactly `40.0`, `30.0`, `30.0` in binary64 and the
partial sums `0,30,40,60,70,100` are all exactly representable, so the
float accumulation is modelled by integers with no loss. -/
def lead_score (b : Rat) (t i : Int) : Int :=
  (if b ≥ 10000 then 40 else 0) + (if t ≤ 30 then 30 else 0) +
    (if i ≥ 7 then 30 else 0)

/-- `qualify_lead` (app.py lines 46-69).  The `try` block first performs
the three conversions, then accumulates the score and buckets it; the
bare `except` can only be reached by a failed conversion and returns
`"Cold"`. -/
def qualify_lead (d : LeadData) : String :=
  match budgetVal d, timelineVal d, interestVal d with
  | some b, some t, some i =>
    let score := lead_score b t i
    if score ≥ 80 then "Hot" else if score ≥ 50 then "Warm" else "Cold"
  | _, _, _ => "Cold"

/- ### Session state and the stage sequencer (`get_next_question`, app.py lines 71-120) -/

/-- One entry of the `stages` table of `get_next_question`: question
text, answer type, and the target field when the question collects one. -/
structure Question where
  question : String
  type : String
  field : Option String := none
  deriving DecidableEq, Repr

/-- A record of `analytics["lead_scores"]`: the lead-data snapshot merged
with the computed category and a timestamp (app.py lines 241-245). -/
structure LeadScore where
  data : LeadData
  category : String
  timestamp : String

/-- The session state touched by the modelled components:
`st.session_state.conversation_stage`, `st.session_state.lead_data` and
`st.session_state.analytics["lead_scores"]`. -/
structure SessionState where
  conversation_stage : String
  lead_data : LeadData
  lead_scores : List LeadScore

/-- `stages["greeting"]`. -/
def greeting_question : Question :=
  { question := "Hi there! 👋 Welcome to Opolla. How can we help you today?",
    type := "greeting" }

/-- `stages["qualify"]`, in source order. -/
def qualify_questions : List Question :=
  [ { question := "What\x27s your estimated budget for this project? (USD)",
      type := "number", field := some "budget" },
    { question := "What\x27s your ideal timeline for implementation (in days)?",
      type := "number", field := some "timeline" },
    { question := "On a scale of 1-10, how urgent is this need?",
      type := "scale", field := some "interest_level" } ]

/-- `stages["contact"]`, in source order. -/
def contact_questions : List Question :=
  [ { question := "What\x27s your full name?", type := "text", field := some "name" },
    { question := "What\x27s your email address?", type := "email", field := some "email" },
    { question := "What\x27s the best phone number to reach you?",
      type := "phone", field := some "phone" } ]

/-- `stages["schedule"]`. -/
def schedule_question : Question :=
  { question := "Would you like to schedule a call with our expert?",
    type := "schedule" }

/-- The terminal `return` of `get_next_question`. -/
def fallback_question : Question :=
  { question := "How can I help you today?", type := "fallback" }

/-- The loop `for q in stages[...]: if q["field"] not in lead_data: return q`.
Every question in the two scanned lists carries a field; a field-less
entry could only raise `KeyError`, which cannot occur here, so it is
treated as answered. -/
def find_unanswered (qs : List Question) (d : LeadData) : Option Question :=
  qs.find? (fun q =>
    match q.field with
    | some f => !hasField d f
    | none => false)

/-- `get_next_question` (app.py lines 71-120).  The function reads and
writes `conversation_stage`, so it is modelled as a state transformer.
When the qualify stage is complete, the Python code sets the stage to
`"contact"` and calls itself recursively; that single recursive call is
unfolded here (the stage is then `"contact"`, so it runs the contact
branch).  Nothing in the `try` block can raise, so the `except` path is
dead; the final fallback return is reached exactly when the stage is
none of the four known ones. -/
def get_next_question (s : SessionState) : SessionState × Question :=
  if s.conversation_stage = "greeting" then (s, greeting_question)
  else if s.conversation_stage = "qualify" then
    match find_unanswered qualify_questions s.lead_data with
    | some q => (s, q)
    | none =>
      match find_unanswered contact_questions s.lead_data with
      | some q => ({ s with conversation_stage := "contact" }, q)
      | none => ({ s with conversation_stage := "schedule" }, schedule_question)
  else if s.conversation_stage = "contact" then
    match find_unanswered contact_questions s.lead_data with
    | some q => (s, q)
    | none => ({ s with conversation_stage := "schedule" }, schedule_question)
  else if s.conversation_stage = "schedule" then (s, schedule_question)
  else (s, fallback_question)

/- ### Completion handling (`main`, app.py lines 236-246) -/

/-- `required_fields` of `main`. -/
def required_fields : List String :=
  ["name", "email", "phone", "budget", "timeline", "interest_level"]

/-- The final conversion handling of `main` (app.py lines 236-246): when
every required field is present, set the stage to `"completed"` and
append the scored lead record; otherwise leave the state untouched.
`datetime.datetime.now()` is an input `now`. -/
def finalize (s : SessionState) (now : String) : SessionState :=
  if required_fields.all (fun f => hasField s.lead_data f) then
    { s with conversation_stage := "completed",
             lead_scores := s.lead_scores ++
               [{ data := s.lead_data, category := qualify_lead s.lead_data,
                  timestamp := now }] }
  else s

/- ### Helper lemmas about the parsers -/

/-- An ASCII digit differs from any non-digit character. -/
lemma digit_ne {c : Char} (h : isAsciiDigit c = true) (a : Char)
    (ha : isAsciiDigit a = false) : c ≠ a := by
  intro e
  rw [e, ha] at h
  cases h

/-- An ASCII digit is not whitespace. -/
lemma ws_false_of_digit {c : Char} (h : isAsciiDigit c = true) :
    c.isWhitespace = false := by
  have h1 : c ≠ ' ' := digit_ne h ' ' (by decide)
  have h2 : c ≠ '\t' := digit_ne h '\t' (by decide)
  have h3 : c ≠ '\r' := digit_ne h '\r' (by decide)
  have h4 : c ≠ '\n' := digit_ne h '\n' (by decide)
  simp [Char.isWhitespace, h1, h2, h3, h4]

/-- `dropWhile` leaves a list alone when no element satisfies `p`. -/
lemma dropWhile_eq_self {p : Char → Bool} {cs : List Char}
    (h : ∀ c ∈ cs, p c = false) : cs.dropWhile p = cs := by
  cases cs with
  | nil => rfl
  | cons a l => simp [List.dropWhile_cons, h a (by simp)]

/-- `trimWs` leaves a whitespace-free list alone. -/
lemma trimWs_eq_self {cs : List Char}
    (h : ∀ c ∈ cs, c.isWhitespace = false) : trimWs cs = cs := by
  rw [trimWs, dropWhile_eq_self h, dropWhile_eq_self, List.reverse_reverse]
  intro c hc
  exact h c (List.mem_reverse.mp hc)

/-- `splitOnFirst` finds nothing when no element satisfies `p`. -/
lemma splitOnFirst_eq_none {p : Char → Bool} {cs : List Char}
    (h : ∀ c ∈ cs, p c = false) : splitOnFirst p cs = (cs, none) := by
  induction cs with
  | nil => rfl
  | cons a l ih =>
    rw [splitOnFirst, h a (by simp), if_neg (by simp)]
    rw [ih (fun c hc => h c (by simp [hc]))]

/-- `digitsTail?` returns a pure digit list unchanged. -/
lemma digitsTail?_all_digits {cs : List Char}
    (h : ∀ c ∈ cs, isAsciiDigit c = true) : digitsTail? cs = some cs := by
  induction cs with
  | nil => rfl
  | cons a l ih =>
    have ha : isAsciiDigit a = true := h a (by simp)
    rw [digitsTail?.eq_def]
    simp only []
    rw [if_neg (digit_ne ha '_' (by decide)), if_pos ha,
      ih (fun c hc => h c (by simp [hc]))]
    rfl

/-- `groupedDigits?` returns a nonempty pure digit list unchanged. -/
lemma groupedDigits?_all_digits {cs : List Char} (hne : cs ≠ [])
    (h : ∀ c ∈ cs, isAsciiDigit c = true) : groupedDigits? cs = some cs := by
  cases cs with
  | nil => exact absurd rfl hne
  | cons a l =>
    rw [groupedDigits?, if_pos (h a (by simp)),
      digitsTail?_all_digits (fun c hc => h c (by simp [hc]))]
    rfl

/-- `pyIntSigned?` on a nonempty pure digit list: its decimal value. -/
lemma pyIntSigned?_all_digits {cs : List Char} (hne : cs ≠ [])
    (h : ∀ c ∈ cs, isAsciiDigit c = true) :
    pyIntSigned? cs = some (natOfDigits cs : Int) := by
  cases cs with
  | nil => exact absurd rfl hne
  | cons a l =>
    have ha : isAsciiDigit a = true := h a (by simp)
    rw [pyIntSigned?]
    rw [if_neg (by simp [digit_ne ha '+' (by decide)]),
      if_neg (by simp [digit_ne ha '-' (by decide)]),
      groupedDigits?_all_digits hne h]
    rfl

/-- `mantissaVal?` on a nonempty pure digit list: its decimal value. -/
lemma mantissaVal?_all_digits {cs : List Char} (hne : cs ≠ [])
    (h : ∀ c ∈ cs, isAsciiDigit c = true) :
    mantissaVal? cs = some (natOfDigits cs : Rat) := by
  have hdot : splitOnFirst (fun c => c == '.') cs = (cs, none) :=
    splitOnFirst_eq_none (fun c hc => by
      simpa using digit_ne (h c hc) '.' (by decide))
  rw [mantissaVal?, hdot]
  rw [groupedDigits?_all_digits hne h]
  rfl

/-- `pyFloatSigned?` on a nonempty pure digit list: its decimal value. -/
lemma pyFloatSigned?_all_digits {cs : List Char} (hne : cs ≠ [])
    (h : ∀ c ∈ cs, isAsciiDigit c = true) :
    pyFloatSigned? cs = some (natOfDigits cs : Rat) := by
  have hexp : splitOnFirst (fun c => c == 'e' || c == 'E') cs = (cs, none) :=
    splitOnFirst_eq_none (fun c hc => by
      simp [digit_ne (h c hc) 'e' (by decide), digit_ne (h c hc) 'E' (by decide)])
  have hnum : pyFloatNum? cs = some (natOfDigits cs : Rat) := by
    rw [pyFloatNum?, hexp]
    exact mantissaVal?_all_digits hne h
  cases cs with
  | nil => exact absurd rfl hne
  | cons a l =>
    have ha : isAsciiDigit a = true := h a (by simp)
    rw [pyFloatSigned?]
    rw [if_neg (by simp [digit_ne ha '+' (by decide)]),
      if_neg (by simp [digit_ne ha '-' (by decide)])]
    exact hnum

/-- A string accepted by the `number` rule is parsed by Python `float`
to the decimal value of its digits. -/
lemma pyFloat?_of_matchNumber {s : String} (h : matchNumberCore s.data = true) :
    pyFloat? s = some (natOfDigits s.data : Rat) := by
  rw [matchNumberCore, Bool.and_eq_true] at h
  have hne : s.data ≠ [] := by
    intro e
    rw [e] at h
    simp at h
  have hall : ∀ c ∈ s.data, isAsciiDigit c = true := by
    have := h.2
    rw [List.all_eq_true] at this
    exact this
  rw [pyFloat?, trimWs_eq_self (fun c hc => ws_false_of_digit (hall c hc))]
  exact pyFloatSigned?_all_digits hne hall

/-- A string accepted by the `number` rule is parsed by Python `int`
to the decimal value of its digits. -/
lemma pyInt?_of_matchNumber {s : String} (h : matchNumberCore s.data = true) :
    pyInt? s = some (natOfDigits s.data : Int) := by
  rw [matchNumberCore, Bool.and_eq_true] at h
  have hne : s.data ≠ [] := by
    intro e
    rw [e] at h
    simp at h
  have hall : ∀ c ∈ s.data, isAsciiDigit c = true := by
    have := h.2
    rw [List.all_eq_true] at this
    exact this
  rw [pyInt?, trimWs_eq_self (fun c hc => ws_false_of_digit (hall c hc))]
  exact pyIntSigned?_all_digits hne hall

/-- A string accepted by the `scale` rule is parsed by Python `int`. -/
lemma pyInt?_of_matchScale {s : String} (h : matchScaleCore s.data = true) :
    ∃ n : Int, pyInt? s = some n := by
  rcases hd : s.data with _ | ⟨c1, _ | ⟨c2, _ | ⟨c3, rest⟩⟩⟩
  · rw [hd] at h
    cases h
  · rw [hd] at h
    rw [matchScaleCore] at h
    have hb := of_decide_eq_true h
    have hc1 : isAsciiDigit c1 = true := by
      rw [isAsciiDigit]
      exact decide_eq_true (by omega)
    refine ⟨natOfDigits [c1], ?_⟩
    rw [pyInt?, hd, trimWs_eq_self, pyIntSigned?_all_digits]
    · simp
    · intro c hc
      simp at hc
      rw [hc]
      exact hc1
    · intro c hc
      simp at hc
      rw [hc]
      exact ws_false_of_digit hc1
  · rw [hd] at h
    rw [matchScaleCore] at h
    have hb := of_decide_eq_true h
    rw [hb.1, hb.2] at hd
    refine ⟨10, ?_⟩
    rw [pyInt?, hd]
    decide
  · rw [hd] at h
    cases h

/- ### Helper lemmas about the scorer and the sequencer -/

/-- When all three conversions succeed, `qualify_lead` buckets the score. -/
lemma qualify_lead_of_parses {d : LeadData} {b : Rat} {t i : Int}
    (hb : budgetVal d = some b) (ht : timelineVal d = some t)
    (hi : interestVal d = some i) :
    qualify_lead d =
      (if lead_score b t i ≥ 80 then "Hot"
       else if lead_score b t i ≥ 50 then "Warm" else "Cold") := by
  rw [qualify_lead, hb, ht, hi]

/-- A question returned by the scan targets an unanswered field. -/
lemma find_unanswered_not_present {qs : List Question} {d : LeadData}
    {q : Question} (h : find_unanswered qs d = some q) {f : String}
    (hf : q.field = some f) : hasField d f = false := by
  have hp := List.find?_some h
  rw [hf] at hp
  simpa using hp

/-- The qualify scan is exhausted exactly when the three qualify fields
are present. -/
lemma find_unanswered_qualify_none {d : LeadData} :
    find_unanswered qualify_questions d = none ↔
      (hasField d "budget" = true ∧ hasField d "timeline" = true ∧
       hasField d "interest_level" = true) := by
  cases hb : hasField d "budget" <;> cases ht : hasField d "timeline" <;>
    cases hi : hasField d "interest_level" <;>
    simp [find_unanswered, qualify_questions, List.find?, hb, ht, hi]

/-- The contact scan is exhausted exactly when the three contact fields
are present. -/
lemma find_unanswered_contact_none {d : LeadData} :
    find_unanswered contact_questions d = none ↔
      (hasField d "name" = true ∧ hasField d "email" = true ∧
       hasField d "phone" = true) := by
  cases hn : hasField d "name" <;> cases he : hasField d "email" <;>
    cases hp : hasField d "phone" <;>
    simp [find_unanswered, contact_questions, List.find?, hn, he, hp]

/- ### Demo data used by the witness theorems -/

/-- A lead with all three qualify answers present and all thresholds met. -/
def demo_hot_lead : LeadData := fun k =>
  if k = "budget" then some "15000"
  else if k = "timeline" then some "20"
  else if k = "interest_level" then some "9" else none

/-- A lead whose budget answer is not numeric. -/
def demo_bad_budget_lead : LeadData := fun k =>
  if k = "budget" then some "abc" else none

/-- A lead meeting the budget and interest thresholds but not the
timeline threshold. -/
def demo_two_of_three_lead : LeadData := fun k =>
  if k = "budget" then some "12000"
  else if k = "timeline" then some "45"
  else if k = "interest_level" then some "9" else none

/- ### The claims -/

/-- C1: for every lead whose three fields convert (with defaults 0, 999
and 0 when a field is missing), `qualify_lead` computes the weighted
score — 40 for `float(budget) >= 10000`, plus 30 for
`int(timeline) <= 30`, plus 30 for `int(interest_level) >= 7` — and
returns "Hot" at score >= 80, "Warm" at score >= 50 and "Cold"
otherwise; in particular, when all three thresholds are met it returns
"Hot". -/
theorem qualify_lead_weighted_score (d : LeadData) (b : Rat) (t i : Int)
    (hb : budgetVal d = some b) (ht : timelineVal d = some t)
    (hi : interestVal d = some i) :
    lead_score b t i =
      (if b ≥ 10000 then 40 else 0) + (if t ≤ 30 then 30 else 0) +
        (if i ≥ 7 then 30 else 0) ∧
    qualify_lead d =
      (if lead_score b t i ≥ 80 then "Hot"
       else if lead_score b t i ≥ 50 then "Warm" else "Cold") ∧
    (d "budget" = none → b = 0) ∧
    (d "timeline" = none → t = 999) ∧
    (d "interest_level" = none → i = 0) ∧
    (b ≥ 10000 → t ≤ 30 → i ≥ 7 → qualify_lead d = "Hot") := by
  refine ⟨rfl, qualify_lead_of_parses hb ht hi, ?_, ?_, ?_, fun h1 h2 h3 => ?_⟩
  · intro h
    rw [budgetVal, h] at hb
    exact (Option.some_inj.mp hb).symm
  · intro h
    rw [timelineVal, h] at ht
    exact (Option.some_inj.mp ht).symm
  · intro h
    rw [interestVal, h] at hi
    exact (Option.some_inj.mp hi).symm
  · rw [qualify_lead_of_parses hb ht hi, lead_score,
      if_pos h1, if_pos h2, if_pos h3]
    norm_num

/-- Witness for C1 at a concrete hot lead. -/
theorem qualify_lead_weighted_score_witness :
    qualify_lead demo_hot_lead = "Hot" :=
  (qualify_lead_weighted_score demo_hot_lead 15000 20 9
    (by decide) (by decide) (by decide)).2.2.2.2.2
    (by norm_num) (by norm_num) (by norm_num)

/-- C4: whenever one of the three conversions of `qualify_lead` fails
(the stored budget, timeline or interest string is not numeric),
`qualify_lead` returns "Cold" instead of propagating the exception. -/
theorem parse_failure_returns_cold (d : LeadData)
    (h : budgetVal d = none ∨ timelineVal d = none ∨ interestVal d = none) :
    qualify_lead d = "Cold" := by
  cases hb : budgetVal d <;> cases ht : timelineVal d <;>
    cases hi : interestVal d <;> simp_all [qualify_lead]

/-- Witness for C4 at a lead whose budget string is `"abc"`. -/
theorem parse_failure_returns_cold_witness :
    qualify_lead demo_bad_budget_lead = "Cold" :=
  parse_failure_returns_cold demo_bad_budget_lead (Or.inl (by decide))

/-- C5: when exactly two of the three thresholds are met the score is 70
(budget and timeline), 70 (budget and interest) or 60 (timeline and
interest), and in all three cases `qualify_lead` returns "Warm". -/
theorem two_thresholds_warm (d : LeadData) (b : Rat) (t i : Int)
    (hb : budgetVal d = some b) (ht : timelineVal d = some t)
    (hi : interestVal d = some i) :
    ((b ≥ 10000 ∧ t ≤ 30 ∧ ¬(i ≥ 7)) →
      lead_score b t i = 70 ∧ qualify_lead d = "Warm") ∧
    ((b ≥ 10000 ∧ ¬(t ≤ 30) ∧ i ≥ 7) →
      lead_score b t i = 70 ∧ qualify_lead d = "Warm") ∧
    ((¬(b ≥ 10000) ∧ t ≤ 30 ∧ i ≥ 7) →
      lead_score b t i = 60 ∧ qualify_lead d = "Warm") := by
  refine ⟨fun ⟨h1, h2, h3⟩ => ?_, fun ⟨h1, h2, h3⟩ => ?_, fun ⟨h1, h2, h3⟩ => ?_⟩
  · have hs : lead_score b t i = 70 := by
      rw [lead_score, if_pos h1, if_pos h2, if_neg h3]
      norm_num
    refine ⟨hs, ?_⟩
    rw [qualify_lead_of_parses hb ht hi, hs]
    norm_num
  · have hs : lead_score b t i = 70 := by
      rw [lead_score, if_pos h1, if_neg h2, if_pos h3]
      norm_num
    refine ⟨hs, ?_⟩
    rw [qualify_lead_of_parses hb ht hi, hs]
    norm_num
  · have hs : lead_score b t i = 60 := by
      rw [lead_score, if_neg h1, if_pos h2, if_pos h3]
      norm_num
    refine ⟨hs, ?_⟩
    rw [qualify_lead_of_parses hb ht hi, hs]
    norm_num

/-- Witness for C5 at a lead meeting the budget and interest thresholds
but not the timeline threshold. -/
theorem two_thresholds_warm_witness :
    lead_score 12000 45 9 = 70 ∧ qualify_lead demo_two_of_three_lead = "Warm" :=
  (two_thresholds_warm demo_two_of_three_lead 12000 45 9
    (by decide) (by decide) (by decide)).2.1
    ⟨by norm_num, by norm_num, by norm_num⟩

/-- A lead whose three qualify answers were accepted by
`validate_response` for their field types. -/
def demo_validated_lead : LeadData := fun k =>
  if k = "budget" then some "12000"
  else if k = "timeline" then some "45"
  else if k = "interest_level" then some "9" else none

/-- C10: when the stored budget and timeline strings were accepted by
the `number` rule and the interest string by the `scale` rule — i.e.
for every value `validate_response` lets into `lead_data` — all three
conversions in `qualify_lead` succeed, so the exception branch is
unreachable and the result is determined by the three threshold
comparisons alone. -/
theorem validated_inputs_never_raise (d : LeadData) (sb st si : String)
    (hdb : d "budget" = some sb) (hvb : validate_response sb "number" = true)
    (hdt : d "timeline" = some st) (hvt : validate_response st "number" = true)
    (hdi : d "interest_level" = some si)
    (hvi : validate_response si "scale" = true) :
    ∃ (b : Rat) (t i : Int),
      budgetVal d = some b ∧ timelineVal d = some t ∧ interestVal d = some i ∧
      qualify_lead d =
        (if lead_score b t i ≥ 80 then "Hot"
         else if lead_score b t i ≥ 50 then "Warm" else "Cold") := by
  rw [validate_response] at hvb hvt hvi
  simp at hvb hvt hvi
  have hfb : pyFloat? sb = some (natOfDigits sb.data : Rat) :=
    pyFloat?_of_matchNumber hvb
  have hft : pyInt? st = some (natOfDigits st.data : Int) :=
    pyInt?_of_matchNumber hvt
  obtain ⟨n, hfi⟩ := pyInt?_of_matchScale hvi
  have hb : budgetVal d = some (natOfDigits sb.data : Rat) := by
    simp only [budgetVal, hdb]
    exact hfb
  have ht : timelineVal d = some (natOfDigits st.data : Int) := by
    simp only [timelineVal, hdt]
    exact hft
  have hi : interestVal d = some n := by
    simp only [interestVal, hdi]
    exact hfi
  exact ⟨_, _, _, hb, ht, hi, qualify_lead_of_parses hb ht hi⟩

/-- Witness for C10: the three conversions succeed on a concrete
validated lead. -/
theorem validated_inputs_never_raise_witness :
    (budgetVal demo_validated_lead).isSome = true ∧
    (timelineVal demo_validated_lead).isSome = true ∧
    (interestVal demo_validated_lead).isSome = true := by
  obtain ⟨b, t, i, hb, ht, hi, _⟩ :=
    validated_inputs_never_raise demo_validated_lead "12000" "45" "9"
      (by decide) (by decide) (by decide) (by decide) (by decide) (by decide)
  exact ⟨by rw [hb]; rfl, by rw [ht]; rfl, by rw [hi]; rfl⟩

/-- C2 counterexample: the claim asserts that the phone rule rejects
"155551234", but the literal pattern also matches it — an optional plus,
the leading digit `1` from `[1-9]`, and the remaining eight digits for
`\d{1,14}` — so `validate_response` accepts it. -/
theorem phone_accepts_bare_digits : validate_response "155551234" "phone" = true := by
  decide

/-- C2 amended: the phone rule accepts "+14155551234", accepts
"14155551234" (no plus sign, per the literal pattern), and also accepts
"155551234" — any string of an optional plus, a digit `1`-`9` and one to
fourteen further digits matches `^\+?[1-9]\d{1,14}$`. -/
theorem phone_pattern_matches : validate_response "+14155551234" "phone" = true ∧
    validate_response "14155551234" "phone" = true ∧
    validate_response "155551234" "phone" = true := by
  decide

/-- C8: the scale rule accepts each of "1" through "10" and rejects "0"
and "11". -/
theorem scale_accepts_one_to_ten :
    validate_response "1" "scale" = true ∧ validate_response "2" "scale" = true ∧
    validate_response "3" "scale" = true ∧ validate_response "4" "scale" = true ∧
    validate_response "5" "scale" = true ∧ validate_response "6" "scale" = true ∧
    validate_response "7" "scale" = true ∧ validate_response "8" "scale" = true ∧
    validate_response "9" "scale" = true ∧ validate_response "10" "scale" = true ∧
    validate_response "0" "scale" = false ∧ validate_response "11" "scale" = false := by
  decide

/-- A session in the qualify stage whose three qualify answers are
present. -/
def demo_qualified_session : SessionState :=
  { conversation_stage := "qualify", lead_data := demo_hot_lead, lead_scores := [] }

/-- C3: `get_next_question` leaves the stage at "qualify" exactly as
long as one of budget, timeline, interest_level is missing, and leaves
it at "contact" exactly as long as one of name, email, phone is missing;
it advances past a stage only when all of that stage's fields are
present. -/
theorem stage_advances_only_when_complete (s : SessionState) :
    (s.conversation_stage = "qualify" →
      ((get_next_question s).1.conversation_stage ≠ "qualify" ↔
        (hasField s.lead_data "budget" = true ∧
         hasField s.lead_data "timeline" = true ∧
         hasField s.lead_data "interest_level" = true))) ∧
    (s.conversation_stage = "contact" →
      ((get_next_question s).1.conversation_stage ≠ "contact" ↔
        (hasField s.lead_data "name" = true ∧
         hasField s.lead_data "email" = true ∧
         hasField s.lead_data "phone" = true))) := by
  obtain ⟨stage, d, ls⟩ := s
  constructor
  · rintro rfl
    rw [get_next_question]
    simp only
    cases hf : find_unanswered qualify_questions d with
    | some q =>
      simp only [hf]
      constructor
      · intro hcontra
        exact absurd rfl hcontra
      · intro hall
        have hnone := find_unanswered_qualify_none.mpr hall
        rw [hf] at hnone
        exact Option.noConfusion hnone
    | none =>
      have hall := find_unanswered_qualify_none.mp hf
      simp only [hf]
      cases hf2 : find_unanswered contact_questions d with
      | some q => simpa [hf2] using hall
      | none => simpa [hf2] using hall
  · rintro rfl
    rw [get_next_question]
    simp only
    cases hf : find_unanswered contact_questions d with
    | some q =>
      simp only [hf]
      constructor
      · intro hcontra
        exact absurd rfl hcontra
      · intro hall
        have hnone := find_unanswered_contact_none.mpr hall
        rw [hf] at hnone
        exact Option.noConfusion hnone
    | none =>
      have hall := find_unanswered_contact_none.mp hf
      simpa [hf] using hall

/-- Witness for C3: with all three qualify answers present the stage
leaves "qualify". -/
theorem stage_advances_only_when_complete_witness :
    (get_next_question demo_qualified_session).1.conversation_stage ≠ "qualify" :=
  ((stage_advances_only_when_complete demo_qualified_session).1 rfl).mpr
    ⟨by decide, by decide, by decide⟩

/-- C6: whenever `get_next_question` returns a question that targets a
field, that field is not yet present in the lead data. -/
theorem question_field_not_present (s : SessionState) (f : String)
    (h : (get_next_question s).2.field = some f) :
    hasField s.lead_data f = false := by
  obtain ⟨stage, d, ls⟩ := s
  rw [get_next_question] at h
  by_cases h1 : stage = "greeting"
  · rw [if_pos h1] at h
    exact absurd h (by simp [greeting_question])
  rw [if_neg h1] at h
  by_cases h2 : stage = "qualify"
  · rw [if_pos h2] at h
    cases hf : find_unanswered qualify_questions d with
    | some q =>
      rw [hf] at h
      exact find_unanswered_not_present hf h
    | none =>
      rw [hf] at h
      cases hf2 : find_unanswered contact_questions d with
      | some q =>
        rw [hf2] at h
        exact find_unanswered_not_present hf2 h
      | none =>
        rw [hf2] at h
        exact absurd h (by simp [schedule_question])
  rw [if_neg h2] at h
  by_cases h3 : stage = "contact"
  · rw [if_pos h3] at h
    cases hf : find_unanswered contact_questions d with
    | some q =>
      rw [hf] at h
      exact find_unanswered_not_present hf h
    | none =>
      rw [hf] at h
      exact absurd h (by simp [schedule_question])
  rw [if_neg h3] at h
  by_cases h4 : stage = "schedule"
  · rw [if_pos h4] at h
    exact absurd h (by simp [schedule_question])
  rw [if_neg h4] at h
  exact absurd h (by simp [fallback_question])

/-- Witness for C6: the first question of a fresh qualify stage targets
the budget field, which is indeed absent. -/
theorem question_field_not_present_witness :
    hasField (fun _ => (none : Option String)) "budget" = false :=
  question_field_not_present
    { conversation_stage := "qualify", lead_data := fun _ => none,
      lead_scores := [] } "budget" (by decide)

/-- C9: for any stage outside greeting, qualify, contact and schedule
(such as "completed"), `get_next_question` returns the fallback question
and leaves the state unchanged. -/
theorem unknown_stage_returns_fallback (s : SessionState)
    (h1 : s.conversation_stage ≠ "greeting")
    (h2 : s.conversation_stage ≠ "qualify")
    (h3 : s.conversation_stage ≠ "contact")
    (h4 : s.conversation_stage ≠ "schedule") :
    get_next_question s = (s, fallback_question) := by
  rw [get_next_question, if_neg h1, if_neg h2, if_neg h3, if_neg h4]

/-- Witness for C9 at the "completed" stage. -/
theorem unknown_stage_returns_fallback_witness :
    get_next_question
        { conversation_stage := "completed", lead_data := fun _ => none,
          lead_scores := [] } =
      ({ conversation_stage := "completed", lead_data := fun _ => none,
         lead_scores := [] }, fallback_question) :=
  unknown_stage_returns_fallback _ (by decide) (by decide) (by decide) (by decide)

/-- A lead with all six required answers present. -/
def demo_complete_lead : LeadData := fun k =>
  if k = "name" then some "Ada"
  else if k = "email" then some "ada@example.com"
  else if k = "phone" then some "+14155551234"
  else if k = "budget" then some "15000"
  else if k = "timeline" then some "20"
  else if k = "interest_level" then some "9" else none

/-- C7: the final conversion handling of `main` sets the stage to
"completed" and appends the `LeadScore` record (lead snapshot, category,
timestamp) exactly when all six required fields — name, email, phone,
budget, timeline, interest_level — are present; with any of them missing
it changes nothing. -/
theorem completion_requires_all_fields (s : SessionState) (now : String) :
    ((hasField s.lead_data "name" = true ∧ hasField s.lead_data "email" = true ∧
      hasField s.lead_data "phone" = true ∧ hasField s.lead_data "budget" = true ∧
      hasField s.lead_data "timeline" = true ∧
      hasField s.lead_data "interest_level" = true) →
      (finalize s now).conversation_stage = "completed" ∧
      (finalize s now).lead_scores = s.lead_scores ++
        [{ data := s.lead_data, category := qualify_lead s.lead_data,
           timestamp := now }]) ∧
    (¬(hasField s.lead_data "name" = true ∧ hasField s.lead_data "email" = true ∧
       hasField s.lead_data "phone" = true ∧ hasField s.lead_data "budget" = true ∧
       hasField s.lead_data "timeline" = true ∧
       hasField s.lead_data "interest_level" = true) →
      finalize s now = s) := by
  have hall : (required_fields.all (fun f => hasField s.lead_data f) = true) ↔
      (hasField s.lead_data "name" = true ∧ hasField s.lead_data "email" = true ∧
       hasField s.lead_data "phone" = true ∧ hasField s.lead_data "budget" = true ∧
       hasField s.lead_data "timeline" = true ∧
       hasField s.lead_data "interest_level" = true) := by
    simp [required_fields]
  constructor
  · intro h
    rw [finalize, if_pos (hall.mpr h)]
    exact ⟨rfl, rfl⟩
  · intro h
    rw [finalize, if_neg (fun hc => h (hall.mp hc))]

/-- A fully answered session awaiting completion. -/
def demo_complete_session : SessionState :=
  { conversation_stage := "schedule", lead_data := demo_complete_lead,
    lead_scores := [] }

/-- Witness for C7 at a fully answered session. -/
theorem completion_requires_all_fields_witness :
    (finalize demo_complete_session "2026-10-12").conversation_stage = "completed" :=
  ((completion_requires_all_fields demo_complete_session "2026-10-12").1
    ⟨by decide, by decide, by decide, by decide, by decide, by decide⟩).1
